import Mathlib

/-!
Shallow embedding of `src/tools/whisper-server/server.py` and
`src/tools/whisper-server/sweep.py` (tr-engine repository), together with
theorems settling the spec claims about them.

Python floats are modelled as exact rationals (`ℚ`); Python ints as `ℤ`;
`None`-able values as `Option`; raisable computations as `PyResult`.
-/

namespace WhisperServer

/-- Python floor division `a // b` on floats (result is an integral float). -/
def pyFloorDiv (a b : ℚ) : ℚ := ((⌊a / b⌋ : ℤ) : ℚ)

/-- Python modulo `a % b` on floats: `a - b * (a // b)`. -/
def pyMod (a b : ℚ) : ℚ := a - b * ((⌊a / b⌋ : ℤ) : ℚ)

/-- Python `int(x)` on a float: truncation toward zero. -/
def pyInt (q : ℚ) : ℤ := if 0 ≤ q then ⌊q⌋ else -⌊-q⌋

/-- Left-pad a digit string with zeros to width `w` (Python zero padding). -/
def zfill (w : ℕ) (s : String) : String :=
  if s.length < w then String.mk (List.replicate (w - s.length) '0') ++ s else s

/-- Python integer formatting with format spec `0wd` (zero-padded, minimum width `w`). -/
def padInt (w : ℕ) (n : ℤ) : String :=
  if n < 0 then "-" ++ zfill (w - 1) (toString (-n)) else zfill w (toString n)

/-- Value of one run of decimal digits. -/
def digitsVal (cs : List Char) : ℕ :=
  cs.foldl (fun n c => 10 * n + (c.toNat - '0'.toNat)) 0

/-- Model of Python `str.strip()` with no argument: remove leading and
trailing whitespace. -/
def pyStrip (s : String) : String :=
  String.mk (((s.data.dropWhile Char.isWhitespace).reverse.dropWhile
    Char.isWhitespace).reverse)

/-- Helper for `pySplit`: accumulate the current piece (reversed) while
scanning. -/
def pySplitAux (sep : Char) : List Char → List Char → List (List Char)
  | [], acc => [acc.reverse]
  | c :: cs, acc =>
    if c = sep then acc.reverse :: pySplitAux sep cs []
    else pySplitAux sep cs (c :: acc)

/-- Model of Python `str.split(sep)` for a one-character separator. -/
def pySplit (sep : Char) (s : String) : List String :=
  (pySplitAux sep s.data []).map String.mk

/-- Model of the Python membership test `c in s` for a one-character needle. -/
def pyInStr (c : Char) (s : String) : Bool := s.data.contains c

/-- Model of Python truthiness of a string: nonempty. -/
def pyTruthy (s : String) : Bool := !s.data.isEmpty

/-- Scaled numerator and decimal exponent of a decimal literal
(optional sign, integer part, optional fractional part). -/
def pyFloatParts (s : String) : ℤ × ℕ :=
  let t := (pyStrip s).data
  let (sign, body) : ℤ × List Char :=
    match t with
    | '-' :: rest => (-1, rest)
    | '+' :: rest => (1, rest)
    | _ => (1, t)
  match pySplitAux '.' body [] with
  | [i] => (sign * digitsVal i, 0)
  | [i, f] => (sign * ((digitsVal i : ℤ) * 10 ^ f.length + digitsVal f), f.length)
  | _ => (0, 0)

/-- Modelled external builtin: Python `float(s)` on plain decimal literals,
returning the exact decimal value. The builtin is part of the Python runtime,
not of this repository. -/
def pyParseFloat (s : String) : ℚ :=
  ((pyFloatParts s).1 : ℚ) / 10 ^ (pyFloatParts s).2

/-- Modelled external builtin: Python `int(s)` on decimal strings. -/
def pyParseInt (s : String) : ℤ :=
  match (pyStrip s).data with
  | '-' :: rest => -(digitsVal rest : ℤ)
  | '+' :: rest => (digitsVal rest : ℤ)
  | t => (digitsVal t : ℤ)

/-- Result of a Python expression that may raise. -/
inductive PyResult (α : Type) where
  | ok (a : α)
  | exn (e : String)
deriving DecidableEq

/-- Return value of `parse_temperature`: a single float or a list of floats. -/
inductive TempValue where
  | single (v : ℚ)
  | list (vs : List ℚ)
deriving DecidableEq

/-- `parse_temperature` (server.py lines 58-66): parse temperature as float or
comma-separated fallback list.  `pyfloat` stands for the Python `float` builtin. -/
def parse_temperature (pyfloat : String → ℚ) (raw : String) : TempValue :=
  if pyInStr ',' raw then
    .list (((pySplit ',' raw).filter (fun t => pyTruthy (pyStrip t))).map
      (fun t => pyfloat (pyStrip t)))
  else
    let val := pyfloat raw
    if val = 0 then .single 0 else .single val

/-- Modelled from the spec's words, for comparison with `parse_temperature`:
with a comma, the ordered list of floats parsed from the trimmed, non-empty
comma-separated substrings; otherwise the single parsed float. -/
def parse_temperature_specSide (pyfloat : String → ℚ) (raw : String) : TempValue :=
  if pyInStr ',' raw then
    .list ((pySplit ',' raw).filterMap
      (fun t => if pyTruthy (pyStrip t) then some (pyfloat (pyStrip t)) else none))
  else
    .single (pyfloat raw)

/-- `want_words` resolution (server.py lines 149-154): the explicit
`word_timestamps` flag when present, else truthiness of
`timestamp_granularities and "word" in timestamp_granularities`. -/
def resolve_want_words (word_timestamps : Option Bool)
    (timestamp_granularities : Option (List String)) : Bool :=
  match word_timestamps with
  | some b => b
  | none =>
    match timestamp_granularities with
    | none => false
    | some l => !l.isEmpty && l.contains "word"

/-- `format_timestamp` (server.py lines 69-75): format seconds as an SRT
timestamp `HH:MM:SS,mmm`. -/
def format_timestamp (seconds : ℚ) : String :=
  let h := pyInt (pyFloorDiv seconds 3600)
  let m := pyInt (pyFloorDiv (pyMod seconds 3600) 60)
  let s := pyInt (pyMod seconds 60)
  let ms := pyInt (pyMod seconds 1 * 1000)
  padInt 2 h ++ ":" ++ padInt 2 m ++ ":" ++ padInt 2 s ++ "," ++ padInt 3 ms

/-- `format_vtt_timestamp` (server.py lines 78-83): same fields with a period
before the milliseconds. -/
def format_vtt_timestamp (seconds : ℚ) : String :=
  let h := pyInt (pyFloorDiv seconds 3600)
  let m := pyInt (pyFloorDiv (pyMod seconds 3600) 60)
  let s := pyInt (pyMod seconds 60)
  let ms := pyInt (pyMod seconds 1 * 1000)
  padInt 2 h ++ ":" ++ padInt 2 m ++ ":" ++ padInt 2 s ++ "." ++ padInt 3 ms

/-- Round-half-to-even to an integer. -/
def roundHalfEven (x : ℚ) : ℤ :=
  if x - (⌊x⌋ : ℚ) < 1 / 2 then ⌊x⌋
  else if 1 / 2 < x - (⌊x⌋ : ℚ) then ⌊x⌋ + 1
  else if ⌊x⌋ % 2 = 0 then ⌊x⌋ else ⌊x⌋ + 1

/-- Model of Python `round(x, n)` on the exact value of `x`
(round-half-to-even at `n` decimal digits). -/
def pyRound (x : ℚ) (n : ℕ) : ℚ := ((roundHalfEven (x * 10 ^ n) : ℤ) : ℚ) / 10 ^ n

/-- A word entry of a rendered segment dict (server.py lines 228-233). -/
structure WordOut where
  word : String
  start : ℚ
  «end» : ℚ
  probability : ℚ
deriving DecidableEq

/-- A rendered segment dict (server.py lines 216-235); the `words` key is
present only when word timestamps were requested and the segment has words. -/
structure SegmentOut where
  id : ℤ
  start : ℚ
  «end» : ℚ
  text : String
  avg_logprob : ℚ
  compression_ratio : ℚ
  no_speech_prob : ℚ
  temperature : ℚ
  words : Option (List WordOut)
deriving DecidableEq

/-- The body of the `segments_to_srt` loop (server.py lines 88-92),
numbering from `i`. -/
def srt_lines (i : ℕ) : List SegmentOut → List String
  | [] => []
  | seg :: rest =>
    toString i ::
      (format_timestamp seg.start ++ " --> " ++ format_timestamp seg.«end») ::
      pyStrip seg.text :: "" :: srt_lines (i + 1) rest

/-- `segments_to_srt` (server.py lines 86-93). -/
def segments_to_srt (segments : List SegmentOut) : String :=
  String.intercalate "\n" (srt_lines 1 segments)

/-- The body of the `segments_to_vtt` loop (server.py lines 98-101). -/
def vtt_lines : List SegmentOut → List String
  | [] => []
  | seg :: rest =>
    (format_vtt_timestamp seg.start ++ " --> " ++ format_vtt_timestamp seg.«end») ::
      pyStrip seg.text :: "" :: vtt_lines rest

/-- `segments_to_vtt` (server.py lines 96-102). -/
def segments_to_vtt (segments : List SegmentOut) : String :=
  String.intercalate "\n" ("WEBVTT" :: "" :: vtt_lines segments)

/-- Modelled from the spec's words, for comparison with `segments_to_srt`:
one block per segment, in order. -/
def srt_block_specSide (idx : ℕ) (seg : SegmentOut) : List String :=
  [toString idx,
   format_timestamp seg.start ++ " --> " ++ format_timestamp seg.«end»,
   pyStrip seg.text,
   ""]

/-- Modelled from the spec's words, for comparison with `segments_to_srt`:
segments numbered sequentially from 1, each rendered as a numbered block
with a comma-millisecond timestamp line, trimmed text and a blank-line
separator. -/
def segments_to_srt_specSide (segments : List SegmentOut) : String :=
  String.intercalate "\n"
    (((List.enumFrom 1 segments).map (fun p => srt_block_specSide p.1 p.2)).flatten)

/-- A word of an engine segment (external collaborator output). -/
structure Word where
  word : String
  start : ℚ
  «end» : ℚ
  probability : ℚ
deriving DecidableEq

/-- An engine segment (external collaborator output); `words` is `None`
unless word timestamps were requested from the engine. -/
structure Segment where
  id : ℤ
  start : ℚ
  «end» : ℚ
  text : String
  avg_logprob : ℚ
  compression_ratio : ℚ
  no_speech_prob : ℚ
  temperature : ℚ
  words : Option (List Word)
deriving DecidableEq

/-- Engine transcription info (external collaborator output). -/
structure EngineInfo where
  language : String
  duration : ℚ
deriving DecidableEq

/-- One rendered word dict (server.py lines 228-233). -/
def mk_word_dict (w : Word) : WordOut :=
  { word := w.word
    start := pyRound w.start 3
    «end» := pyRound w.«end» 3
    probability := pyRound w.probability 4 }

/-- Python truthiness of `seg.words` (`None` and `[]` are falsy). -/
def seg_words_truthy : Option (List Word) → Bool
  | none => false
  | some ws => !ws.isEmpty

/-- One rendered segment dict (server.py lines 216-235): start/end rounded to
3 decimals, the three confidence metrics to 4, text and temperature passed
through; the `words` key added only when wanted and present. -/
def mk_seg_dict (want_words : Bool) (seg : Segment) : SegmentOut :=
  let base : SegmentOut :=
    { id := seg.id
      start := pyRound seg.start 3
      «end» := pyRound seg.«end» 3
      text := seg.text
      avg_logprob := pyRound seg.avg_logprob 4
      compression_ratio := pyRound seg.compression_ratio 4
      no_speech_prob := pyRound seg.no_speech_prob 4
      temperature := seg.temperature
      words := none }
  if want_words && seg_words_truthy seg.words then
    { base with words := some ((seg.words.getD []).map mk_word_dict) }
  else base

/-- Accumulated output of the segment-consumption loop
(server.py lines 211-240). -/
structure ConsumeOut where
  result_segments : List SegmentOut
  all_words : List WordOut
  full_text : String
deriving DecidableEq

/-- The segment-consumption loop (server.py lines 215-238), with the final
join-and-strip of line 240 applied on exit. -/
def consume_loop (want_words : Bool) (segs : List Segment)
    (result_segments : List SegmentOut) (all_words : List WordOut)
    (full_text_parts : List String) : ConsumeOut :=
  match segs with
  | [] => ⟨result_segments, all_words, pyStrip (String.join full_text_parts)⟩
  | seg :: rest =>
    let seg_dict := mk_seg_dict want_words seg
    let all_words :=
      if want_words && seg_words_truthy seg.words then
        all_words ++ seg_dict.words.getD []
      else all_words
    consume_loop want_words rest (result_segments ++ [seg_dict]) all_words
      (full_text_parts ++ [seg.text])

/-- Consuming the whole generator (server.py lines 211-240). -/
def consume_segments (want_words : Bool) (segs : List Segment) : ConsumeOut :=
  consume_loop want_words segs [] [] []

/-- The nested VAD options dict (server.py lines 165-171). -/
structure VadOptions where
  threshold : ℚ
  min_speech_duration_ms : ℤ
  min_silence_duration_ms : ℤ
  max_speech_duration_s : ℚ
  speech_pad_ms : ℤ
deriving DecidableEq

/-- The form fields of `POST /v1/audio/transcriptions`
(server.py lines 109-145).  FastAPI supplies the declared defaults for
omitted fields before the handler body runs, so the model takes the final
field values. -/
structure TranscribeForm where
  language : Option String
  prompt : Option String
  response_format : String
  temperature : String
  timestamp_granularities : Option (List String)
  beam_size : ℤ
  best_of : ℤ
  patience : ℚ
  length_penalty : ℚ
  repetition_penalty : ℚ
  no_repeat_ngram_size : ℤ
  compression_ratio_threshold : ℚ
  log_prob_threshold : ℚ
  no_speech_threshold : ℚ
  condition_on_previous_text : Bool
  prompt_reset_on_temperature : ℚ
  suppress_blank : Bool
  suppress_tokens : String
  max_new_tokens : Option ℤ
  max_initial_timestamp : ℚ
  hallucination_silence_threshold : Option ℚ
  hotwords : Option String
  word_timestamps : Option Bool
  without_timestamps : Bool
  vad_filter : Bool
  vad_threshold : ℚ
  vad_min_speech_duration_ms : ℤ
  vad_min_silence_duration_ms : ℤ
  vad_max_speech_duration_s : ℚ
  vad_speech_pad_ms : ℤ

/-- The keyword arguments passed to `whisper_model.transcribe`
(server.py lines 181-207), minus the audio path. -/
structure EngineCall where
  language : Option String
  task : String
  beam_size : ℤ
  best_of : ℤ
  patience : ℚ
  length_penalty : ℚ
  repetition_penalty : ℚ
  no_repeat_ngram_size : ℤ
  temperature : TempValue
  compression_ratio_threshold : ℚ
  log_prob_threshold : ℚ
  no_speech_threshold : ℚ
  condition_on_previous_text : Bool
  prompt_reset_on_temperature : ℚ
  initial_prompt : Option String
  suppress_blank : Bool
  suppress_tokens : List ℤ
  max_new_tokens : Option ℤ
  max_initial_timestamp : ℚ
  word_timestamps : Bool
  without_timestamps : Bool
  hallucination_silence_threshold : Option ℚ
  hotwords : Option String
  vad_filter : Bool
  vad_parameters : Option VadOptions

/-- Parameter adaptation of the `transcribe` handler
(server.py lines 149-207): want-words resolution, temperature parsing,
suppress-token parsing, VAD dict construction, and pass-through of the
remaining fields to the engine call. -/
def build_engine_call (form : TranscribeForm) : EngineCall :=
  let want_words := resolve_want_words form.word_timestamps form.timestamp_granularities
  let temp := parse_temperature pyParseFloat form.temperature
  let sup_tokens :=
    ((pySplit ',' form.suppress_tokens).filter (fun t => pyTruthy (pyStrip t))).map
      (fun t => pyParseInt (pyStrip t))
  let vad_params : Option VadOptions :=
    if form.vad_filter then
      some { threshold := form.vad_threshold
             min_speech_duration_ms := form.vad_min_speech_duration_ms
             min_silence_duration_ms := form.vad_min_silence_duration_ms
             max_speech_duration_s := form.vad_max_speech_duration_s
             speech_pad_ms := form.vad_speech_pad_ms }
    else none
  { language := form.language
    task := "transcribe"
    beam_size := form.beam_size
    best_of := form.best_of
    patience := form.patience
    length_penalty := form.length_penalty
    repetition_penalty := form.repetition_penalty
    no_repeat_ngram_size := form.no_repeat_ngram_size
    temperature := temp
    compression_ratio_threshold := form.compression_ratio_threshold
    log_prob_threshold := form.log_prob_threshold
    no_speech_threshold := form.no_speech_threshold
    condition_on_previous_text := form.condition_on_previous_text
    prompt_reset_on_temperature := form.prompt_reset_on_temperature
    initial_prompt := form.prompt
    suppress_blank := form.suppress_blank
    suppress_tokens := sup_tokens
    max_new_tokens := form.max_new_tokens
    max_initial_timestamp := form.max_initial_timestamp
    word_timestamps := want_words
    without_timestamps := form.without_timestamps
    hallucination_silence_threshold := form.hallucination_silence_threshold
    hotwords := form.hotwords
    vad_filter := form.vad_filter
    vad_parameters := vad_params }

/-- The verbose JSON payload (server.py lines 258-266). -/
structure VerbosePayload where
  task : String
  language : String
  duration : ℚ
  text : String
  segments : List SegmentOut
  words : List WordOut
  processing_time : ℚ
deriving DecidableEq

/-- A rendered HTTP response: a plain-text body, a JSON object with only the
`text` field, or the verbose JSON object. -/
inductive Response where
  | plain (body : String)
  | jsonText (text : String)
  | jsonVerbose (payload : VerbosePayload)
deriving DecidableEq

/-- Response formatting (server.py lines 248-271): four recognized formats,
with everything else falling through to the default JSON shape. -/
def render_response (response_format : String) (co : ConsumeOut)
    (language : String) (duration : ℚ) (processing_time : ℚ)
    (want_words : Bool) : Response :=
  if response_format = "text" then .plain co.full_text
  else if response_format = "srt" then .plain (segments_to_srt co.result_segments)
  else if response_format = "vtt" then .plain (segments_to_vtt co.result_segments)
  else if response_format = "verbose_json" then
    .jsonVerbose
      { task := "transcribe"
        language := language
        duration := duration
        text := co.full_text
        segments := co.result_segments
        words := if want_words then co.all_words else []
        processing_time := processing_time }
  else .jsonText co.full_text

/-- `os.unlink` against a one-file filesystem: raises `FileNotFoundError`
when the file is already gone. -/
def os_unlink (fileStillThere : Bool) : PyResult Unit :=
  if fileStillThere then .ok () else .exn "FileNotFoundError"

/-- The `try ... finally: os.unlink(tmp_path)` of server.py lines 180-245:
the unlink always runs; if it raises, its exception replaces the body's
outcome.  The second component records whether the transient file was
actually removed. -/
def try_finally_unlink {α : Type} (body : PyResult α)
    (fileStillThere : Bool) : PyResult α × Bool :=
  match os_unlink fileStillThere with
  | .ok _ => (body, true)
  | .exn e => (.exn e, false)

/-- The `transcribe` handler after the upload was written to the transient
file (server.py lines 180-271), parameterized by the engine outcome (the
engine call plus generator consumption either yields segments and info or
raises) and by whether the transient file is still present when the
`finally` block runs. -/
def transcribe_request (form : TranscribeForm)
    (engine : PyResult (List Segment × EngineInfo))
    (fileStillThere : Bool) (processing_time : ℚ) : PyResult Response × Bool :=
  let want_words := resolve_want_words form.word_timestamps form.timestamp_granularities
  let body : PyResult (ConsumeOut × EngineInfo × ℚ) :=
    match engine with
    | .exn e => .exn e
    | .ok (segs, info) =>
      .ok (consume_segments want_words segs, info, pyRound info.duration 3)
  match try_finally_unlink body fileStillThere with
  | (.exn e, removed) => (.exn e, removed)
  | (.ok (co, info, duration), removed) =>
    (.ok (render_response form.response_format co info.language duration
      processing_time want_words), removed)

/-- A concrete request form with the VAD filter enabled, used to instantiate
universally quantified statements. -/
def sampleVadForm : TranscribeForm :=
  { language := some "en"
    prompt := none
    response_format := "json"
    temperature := "0.0"
    timestamp_granularities := none
    beam_size := 5
    best_of := 5
    patience := 1
    length_penalty := 1
    repetition_penalty := 1
    no_repeat_ngram_size := 0
    compression_ratio_threshold := 2
    log_prob_threshold := -1
    no_speech_threshold := 1
    condition_on_previous_text := true
    prompt_reset_on_temperature := 1
    suppress_blank := true
    suppress_tokens := "-1"
    max_new_tokens := none
    max_initial_timestamp := 1
    hallucination_silence_threshold := none
    hotwords := none
    word_timestamps := none
    without_timestamps := false
    vad_filter := true
    vad_threshold := 1
    vad_min_speech_duration_ms := 250
    vad_min_silence_duration_ms := 2000
    vad_max_speech_duration_s := 30
    vad_speech_pad_ms := 400 }

/-- The exact value of the IEEE-754 double denoted by the Python literal
`3661.234` (it is 3661.2339999999999236…, slightly below the decimal value).
At this input every intermediate operation of `format_timestamp` and
`format_vtt_timestamp` is exact in double precision, so the rational model
coincides with the float computation. -/
def double_3661_234 : ℚ := 8051138710017671 / 2199023255552

/-- A concrete engine segment whose sampling temperature has five decimal
digits, used to instantiate universally quantified statements. -/
def fiveDigitTempSeg : Segment :=
  { id := 0
    start := 0
    «end» := 1
    text := "hi"
    avg_logprob := -1
    compression_ratio := 1
    no_speech_prob := 0
    temperature := 12345 / 100000
    words := none }

end WhisperServer

namespace Sweep

open WhisperServer

/-- The fixed audio file list of the sweep driver (sweep.py lines 11-18). -/
def FILES : List String :=
  ["D:\\Downloads\\test_audio\\11501-1732852092-101.m4a",
   "D:\\Downloads\\test_audio\\11501-1732890340-4771.m4a",
   "D:\\Downloads\\test_audio\\11501-1732896070-5814.m4a",
   "D:\\Downloads\\test_audio\\11531-1732910648-858.m4a",
   "D:\\Downloads\\test_audio\\17508-1726293137_851762500.0-call_91989.m4a",
   "D:\\Downloads\\test_audio\\21029-1726738591_852687500.0-call_35128.m4a"]

/-- The parts of a parsed verbose-JSON response that `run_test` reads
(sweep.py lines 46-50): of each word entry only its `probability` is
consumed, and of the segment list only its length. -/
structure ResponseData where
  text : String
  duration : ℚ
  processing_time : ℚ
  words : List ℚ
  segments : ℕ
deriving DecidableEq

/-- A per-file result dict of `run_test` (sweep.py lines 56-66). -/
structure FileResult where
  file : String
  duration : ℚ
  proc_time : ℚ
  segments : ℕ
  words : ℕ
  avg_prob : ℚ
  min_prob : ℚ
  low_conf_words : ℕ
  text : String
deriving DecidableEq

/-- An entry of the `results` list: either the error dict of sweep.py line 43
or a full per-file result dict. -/
inductive SweepResult where
  | error (file : String) (msg : String)
  | success (r : FileResult)
deriving DecidableEq

/-- Python `min(xs, default=d)`. -/
def pyMinDefault (d : ℚ) : List ℚ → ℚ
  | [] => d
  | x :: rest => rest.foldl min x

/-- One iteration of the `run_test` loop (sweep.py lines 26-72) for file `f`:
a missing file is skipped; an exception from the HTTP call or JSON parsing
(`fetch f` raising) yields one error record; otherwise statistics are
extracted.  The second component lists the HTTP calls made. -/
def run_test_file (os_path_exists : String → Bool)
    (fetch : String → PyResult ResponseData) (basename : String → String)
    (f : String) : List SweepResult × List String :=
  if os_path_exists f then
    match fetch f with
    | .exn e => ([.error (basename f) e], [f])
    | .ok data =>
      let words := data.words
      let avg_prob := if !words.isEmpty then words.sum / words.length else 0
      let min_prob := pyMinDefault 0 words
      let low_words := words.filter (fun p => decide (p < 3 / 10))
      ([.success
          { file := basename f
            duration := data.duration
            proc_time := data.processing_time
            segments := data.segments
            words := words.length
            avg_prob := pyRound avg_prob 3
            min_prob := pyRound min_prob 3
            low_conf_words := low_words.length
            text := data.text }], [f])
  else ([], [])

/-- The `run_test` loop over a file list, accumulating result records and
HTTP calls in order. -/
def run_test_loop (os_path_exists : String → Bool)
    (fetch : String → PyResult ResponseData) (basename : String → String) :
    List String → List SweepResult × List String
  | [] => ([], [])
  | f :: rest =>
    let step := run_test_file os_path_exists fetch basename f
    let tail := run_test_loop os_path_exists fetch basename rest
    (step.1 ++ tail.1, step.2 ++ tail.2)

/-- `run_test` (sweep.py lines 23-74): one pass over the fixed file list. -/
def run_test (os_path_exists : String → Bool)
    (fetch : String → PyResult ResponseData) (basename : String → String) :
    List SweepResult × List String :=
  run_test_loop os_path_exists fetch basename FILES

/-- A row of the summary table (sweep.py lines 205-209). -/
structure SummaryRow where
  label : String
  avg_p : ℚ
  min_p : ℚ
  low_c : ℕ
  avg_t : ℚ
deriving DecidableEq

/-- Whether a result dict is an error record (`"error" in r`). -/
def isErrorRecord : SweepResult → Bool
  | .error _ _ => true
  | .success _ => false

/-- The `valid` sub-list (sweep.py line 202): the records without an
`"error"` key, which are exactly the full per-file result dicts. -/
def validRecords (results : List SweepResult) : List FileResult :=
  results.filterMap (fun r =>
    match r with
    | .success fr => some fr
    | .error _ _ => none)

/-- One iteration of the summary-table loop (sweep.py lines 201-211):
`none` when `valid` is empty (the `continue`), else the aggregate row. -/
def summary_row (label : String) (results : List SweepResult) :
    Option SummaryRow :=
  match validRecords results with
  | [] => none
  | fr :: frs =>
    let valid := fr :: frs
    some
      { label := label
        avg_p := (valid.map FileResult.avg_prob).sum / valid.length
        min_p := pyMinDefault 0 (valid.map FileResult.min_prob)
        low_c := (valid.map FileResult.low_conf_words).sum
        avg_t := (valid.map FileResult.proc_time).sum / valid.length }

/-- The summary-table loop (sweep.py lines 201-211) over the accumulated
`(label, results)` pairs, skipping configurations without valid records. -/
def summary_table : List (String × List SweepResult) → List SummaryRow
  | [] => []
  | (label, results) :: rest =>
    match summary_row label results with
    | none => summary_table rest
    | some row => row :: summary_table rest

/-- A concrete per-file result record, used to instantiate universally
quantified statements. -/
def demoFileResult : FileResult :=
  { file := "a.m4a"
    duration := 4
    proc_time := 2
    segments := 1
    words := 3
    avg_prob := 1
    min_prob := 1
    low_conf_words := 0
    text := "hello" }

end Sweep

namespace WhisperServer

/-- C1: with a comma the result is the ordered list of floats parsed from the
trimmed non-empty comma-separated substrings, otherwise the single parsed
float; and the input "0.0" yields the scalar 0.0, never a one-element list. -/
theorem parse_temperature_correct :
    (∀ (pyfloat : String → ℚ) (raw : String),
      parse_temperature pyfloat raw = parse_temperature_specSide pyfloat raw) ∧
    parse_temperature pyParseFloat "0.0" = TempValue.single 0 := by
  constructor
  · intro pyfloat raw
    unfold parse_temperature parse_temperature_specSide
    by_cases hc : pyInStr ',' raw
    · simp only [hc, if_true]
      congr 1
      induction pySplit ',' raw with
      | nil => rfl
      | cons t ts ih =>
        by_cases ht : pyTruthy (pyStrip t) <;>
          simp [List.filter_cons, List.filterMap_cons, ht, ih]
    · simp only [hc, if_false]
      by_cases hv : pyfloat raw = 0 <;> simp [hv]
  · have hc : pyInStr ',' "0.0" = false := by decide
    have hp : pyFloatParts "0.0" = (0, 1) := by decide
    have hv : pyParseFloat "0.0" = 0 := by
      rw [pyParseFloat, hp]
      norm_num
    simp [parse_temperature, hc, hv]

/-- C2: word-level timestamps are requested exactly when the explicit
`word_timestamps` flag is `true`, or, when that flag is absent, when
`timestamp_granularities[]` contains "word"; an explicit `false` wins over the
granularities field. -/
theorem resolve_want_words_correct :
    ∀ (wt : Option Bool) (tg : Option (List String)),
      resolve_want_words wt tg = true ↔
        (wt = some true ∨ (wt = none ∧ ∃ l, tg = some l ∧ "word" ∈ l)) := by
  intro wt tg
  cases wt with
  | some b =>
    cases b <;> simp [resolve_want_words]
  | none =>
    cases tg with
    | none => simp [resolve_want_words]
    | some l =>
      cases l with
      | nil => simp [resolve_want_words]
      | cons x xs =>
        constructor
        · intro h
          refine Or.inr ⟨rfl, x :: xs, rfl, ?_⟩
          have h' : (x :: xs).contains "word" = true := by
            simpa [resolve_want_words] using h
          simpa using h'
        · rintro (h | ⟨-, l', hl', hm⟩)
          · cases h
          · cases hl'
            simp only [resolve_want_words, List.isEmpty_cons, Bool.not_false,
              Bool.true_and]
            simpa using hm

/-- C3: the engine receives `vad_parameters = None` exactly when `vad_filter`
is false, and the nested options object built from the five VAD form fields
when `vad_filter` is true. -/
theorem vad_parameters_correct :
    ∀ form : TranscribeForm,
      ((build_engine_call form).vad_parameters = none ↔ form.vad_filter = false) ∧
      (form.vad_filter = true →
        (build_engine_call form).vad_parameters = some
          { threshold := form.vad_threshold
            min_speech_duration_ms := form.vad_min_speech_duration_ms
            min_silence_duration_ms := form.vad_min_silence_duration_ms
            max_speech_duration_s := form.vad_max_speech_duration_s
            speech_pad_ms := form.vad_speech_pad_ms }) := by
  intro form
  by_cases h : form.vad_filter <;> simp [build_engine_call, h]

/-- Witness for C3 at a concrete form with the VAD filter enabled. -/
theorem vad_parameters_correct_witness :
    (build_engine_call sampleVadForm).vad_parameters = some
      { threshold := sampleVadForm.vad_threshold
        min_speech_duration_ms := sampleVadForm.vad_min_speech_duration_ms
        min_silence_duration_ms := sampleVadForm.vad_min_silence_duration_ms
        max_speech_duration_s := sampleVadForm.vad_max_speech_duration_s
        speech_pad_ms := sampleVadForm.vad_speech_pad_ms } :=
  (vad_parameters_correct sampleVadForm).2 rfl

/-- C4: a `response_format` that is none of "text", "srt", "vtt",
"verbose_json" raises no error; the handler returns the default JSON shape,
an object with only the full-text field, identical to the "json" case. -/
theorem unrecognized_format_defaults_to_json :
    ∀ (form : TranscribeForm) (segs : List Segment) (info : EngineInfo) (pt : ℚ),
      form.response_format ≠ "text" → form.response_format ≠ "srt" →
      form.response_format ≠ "vtt" → form.response_format ≠ "verbose_json" →
      (transcribe_request form (.ok (segs, info)) true pt).1 = .ok (Response.jsonText
        (consume_segments (resolve_want_words form.word_timestamps
          form.timestamp_granularities) segs).full_text) ∧
      (transcribe_request { form with response_format := "json" }
          (.ok (segs, info)) true pt).1 = .ok (Response.jsonText
        (consume_segments (resolve_want_words form.word_timestamps
          form.timestamp_granularities) segs).full_text) := by
  intro form segs info pt h1 h2 h3 h4
  constructor <;>
    simp [transcribe_request, try_finally_unlink, os_unlink, render_response,
      h1, h2, h3, h4]

/-- Witness for C4 at the unrecognized format string "xml". -/
theorem unrecognized_format_defaults_to_json_witness :
    (transcribe_request { sampleVadForm with response_format := "xml" }
        (.ok ([], ⟨"en", 0⟩)) true 0).1 = .ok (Response.jsonText
      (consume_segments (resolve_want_words
        ({ sampleVadForm with response_format := "xml" } : TranscribeForm).word_timestamps
        ({ sampleVadForm with response_format := "xml" } : TranscribeForm).timestamp_granularities)
        []).full_text) :=
  (unrecognized_format_defaults_to_json { sampleVadForm with response_format := "xml" }
    [] ⟨"en", 0⟩ 0 (by decide) (by decide) (by decide) (by decide)).1

/-- C8: for every request reaching the engine call, the transient file is
removed after the call completes, whether the engine outcome is a success or
an exception; and when the file is already gone at cleanup time, the
unguarded `os.unlink` itself raises `FileNotFoundError`. -/
theorem tmp_file_always_removed :
    ∀ (form : TranscribeForm) (engine : PyResult (List Segment × EngineInfo)) (pt : ℚ),
      (transcribe_request form engine true pt).2 = true ∧
      (transcribe_request form engine false pt).1 = .exn "FileNotFoundError" := by
  intro form engine pt
  cases engine with
  | ok a =>
    obtain ⟨segs, info⟩ := a
    constructor <;> simp [transcribe_request, try_finally_unlink, os_unlink]
  | exn e =>
    constructor <;> simp [transcribe_request, try_finally_unlink, os_unlink]

/-- The SRT loop starting at index `i` produces the numbered blocks of the
enumerated segments starting at `i`. -/
theorem srt_lines_eq_blocks (segs : List SegmentOut) :
    ∀ i, srt_lines i segs =
      ((List.enumFrom i segs).map (fun p => srt_block_specSide p.1 p.2)).flatten := by
  induction segs with
  | nil => intro i; rfl
  | cons s rest ih =>
    intro i
    simp [srt_lines, srt_block_specSide, List.enumFrom, ih]

/-- C5 counterexample: the Python literal `3661.234` denotes the double
`double_3661_234`, and there `format_timestamp` yields "01:01:01,233" (the
milliseconds are truncated, not rounded), not the claimed "01:01:01,234";
likewise `format_vtt_timestamp` yields "01:01:01.233". -/
theorem format_timestamp_3661_234_counterexample :
    format_timestamp double_3661_234 = "01:01:01,233" ∧
    format_vtt_timestamp double_3661_234 = "01:01:01.233" ∧
    ("01:01:01,233" : String) ≠ "01:01:01,234" ∧
    ("01:01:01.233" : String) ≠ "01:01:01.234" := by
  have h1 : pyInt (pyFloorDiv double_3661_234 3600) = 1 := by
    unfold pyInt pyFloorDiv
    rw [show (⌊double_3661_234 / 3600⌋ : ℤ) = 1 by
      rw [Int.floor_eq_iff]; norm_num [double_3661_234]]
    norm_num
  have h2 : pyInt (pyFloorDiv (pyMod double_3661_234 3600) 60) = 1 := by
    unfold pyInt pyFloorDiv pyMod
    rw [show (⌊double_3661_234 / 3600⌋ : ℤ) = 1 by
      rw [Int.floor_eq_iff]; norm_num [double_3661_234]]
    rw [show (⌊(double_3661_234 - 3600 * ((1 : ℤ) : ℚ)) / 60⌋ : ℤ) = 1 by
      rw [Int.floor_eq_iff]; norm_num [double_3661_234]]
    norm_num
  have h3 : pyInt (pyMod double_3661_234 60) = 1 := by
    unfold pyInt pyMod
    rw [show (⌊double_3661_234 / 60⌋ : ℤ) = 61 by
      rw [Int.floor_eq_iff]; norm_num [double_3661_234]]
    rw [if_pos (by norm_num [double_3661_234])]
    rw [Int.floor_eq_iff]
    norm_num [double_3661_234]
  have h4 : pyInt (pyMod double_3661_234 1 * 1000) = 233 := by
    unfold pyInt pyMod
    rw [show (⌊double_3661_234 / 1⌋ : ℤ) = 3661 by
      rw [Int.floor_eq_iff]; norm_num [double_3661_234]]
    rw [if_pos (by norm_num [double_3661_234])]
    rw [Int.floor_eq_iff]
    norm_num [double_3661_234]
  refine ⟨?_, ?_, by decide, by decide⟩
  · simp only [format_timestamp, h1, h2, h3, h4]
    decide
  · simp only [format_vtt_timestamp, h1, h2, h3, h4]
    decide

/-- C5 amended: at the double denoted by the literal `3661.234` the code
yields "01:01:01,233" and "01:01:01.233" (millisecond truncation on a value
just below the decimal); at the exact decimal 3661.234 it would yield the
claimed "01:01:01,234" and "01:01:01.234". -/
theorem format_timestamp_3661_234_amended :
    format_timestamp double_3661_234 = "01:01:01,233" ∧
    format_vtt_timestamp double_3661_234 = "01:01:01.233" ∧
    format_timestamp (3661234 / 1000) = "01:01:01,234" ∧
    format_vtt_timestamp (3661234 / 1000) = "01:01:01.234" := by
  obtain ⟨ha, hb, -, -⟩ := format_timestamp_3661_234_counterexample
  have h1 : pyInt (pyFloorDiv ((3661234 : ℚ) / 1000) 3600) = 1 := by
    unfold pyInt pyFloorDiv
    rw [show (⌊(3661234 : ℚ) / 1000 / 3600⌋ : ℤ) = 1 by
      rw [Int.floor_eq_iff]; norm_num]
    norm_num
  have h2 : pyInt (pyFloorDiv (pyMod ((3661234 : ℚ) / 1000) 3600) 60) = 1 := by
    unfold pyInt pyFloorDiv pyMod
    rw [show (⌊(3661234 : ℚ) / 1000 / 3600⌋ : ℤ) = 1 by
      rw [Int.floor_eq_iff]; norm_num]
    rw [show (⌊((3661234 : ℚ) / 1000 - 3600 * ((1 : ℤ) : ℚ)) / 60⌋ : ℤ) = 1 by
      rw [Int.floor_eq_iff]; norm_num]
    norm_num
  have h3 : pyInt (pyMod ((3661234 : ℚ) / 1000) 60) = 1 := by
    unfold pyInt pyMod
    rw [show (⌊(3661234 : ℚ) / 1000 / 60⌋ : ℤ) = 61 by
      rw [Int.floor_eq_iff]; norm_num]
    rw [if_pos (by norm_num)]
    rw [Int.floor_eq_iff]
    norm_num
  have h4 : pyInt (pyMod ((3661234 : ℚ) / 1000) 1 * 1000) = 234 := by
    unfold pyInt pyMod
    rw [show (⌊(3661234 : ℚ) / 1000 / 1⌋ : ℤ) = 3661 by
      rw [Int.floor_eq_iff]; norm_num]
    rw [if_pos (by norm_num)]
    rw [Int.floor_eq_iff]
    norm_num
  refine ⟨ha, hb, ?_, ?_⟩
  · simp only [format_timestamp, h1, h2, h3, h4]
    decide
  · simp only [format_vtt_timestamp, h1, h2, h3, h4]
    decide

/-- C6 counterexample: a segment whose engine temperature is 0.12345 reaches
the verbose segment list with temperature exactly 0.12345, which differs from
its value rounded to 3 decimals and from its value rounded to 4 decimals: the
temperature field is passed through unrounded. -/
theorem segment_temperature_unrounded_counterexample :
    (mk_seg_dict false fiveDigitTempSeg).temperature = 12345 / 100000 ∧
    (consume_segments false [fiveDigitTempSeg]).result_segments.map
      SegmentOut.temperature = [12345 / 100000] ∧
    pyRound ((12345 : ℚ) / 100000) 3 ≠ 12345 / 100000 ∧
    pyRound ((12345 : ℚ) / 100000) 4 ≠ 12345 / 100000 := by
  have hr3 : pyRound ((12345 : ℚ) / 100000) 3 = 123 / 1000 := by
    unfold pyRound roundHalfEven
    rw [show (⌊(12345 : ℚ) / 100000 * 10 ^ 3⌋ : ℤ) = 123 by
      rw [Int.floor_eq_iff]; norm_num]
    norm_num
  have hr4 : pyRound ((12345 : ℚ) / 100000) 4 = 1234 / 10000 := by
    unfold pyRound roundHalfEven
    rw [show (⌊(12345 : ℚ) / 100000 * 10 ^ 4⌋ : ℤ) = 1234 by
      rw [Int.floor_eq_iff]; norm_num]
    norm_num
  refine ⟨rfl, rfl, ?_, ?_⟩
  · rw [hr3]; norm_num
  · rw [hr4]; norm_num

/-- The consumption loop renders every segment through `mk_seg_dict`, in
order, after the already-accumulated prefix. -/
theorem consume_loop_result_segments (ww : Bool) :
    ∀ (segs : List Segment) (rs : List SegmentOut) (aw : List WordOut)
      (ps : List String),
      (consume_loop ww segs rs aw ps).result_segments =
        rs ++ segs.map (mk_seg_dict ww) := by
  intro segs
  induction segs with
  | nil => intro rs aw ps; simp [consume_loop]
  | cons s rest ih =>
    intro rs aw ps
    simp only [consume_loop, List.map_cons]
    rw [ih]
    simp

/-- C6 amended: every verbose segment carries id, start, end, text,
avg_logprob, compression_ratio, no_speech_prob and temperature; start and end
are rounded to 3 decimals, the three confidence metrics to 4 decimals, word
start/end to 3 and word probability to 4; the temperature is passed through
unrounded. -/
theorem seg_dict_fields_amended :
    ∀ (ww : Bool) (segs : List Segment) (seg : Segment) (w : Word),
      (consume_segments ww segs).result_segments = segs.map (mk_seg_dict ww) ∧
      (mk_seg_dict ww seg).id = seg.id ∧
      (mk_seg_dict ww seg).start = pyRound seg.start 3 ∧
      (mk_seg_dict ww seg).«end» = pyRound seg.«end» 3 ∧
      (mk_seg_dict ww seg).text = seg.text ∧
      (mk_seg_dict ww seg).avg_logprob = pyRound seg.avg_logprob 4 ∧
      (mk_seg_dict ww seg).compression_ratio = pyRound seg.compression_ratio 4 ∧
      (mk_seg_dict ww seg).no_speech_prob = pyRound seg.no_speech_prob 4 ∧
      (mk_seg_dict ww seg).temperature = seg.temperature ∧
      mk_word_dict w =
        { word := w.word
          start := pyRound w.start 3
          «end» := pyRound w.«end» 3
          probability := pyRound w.probability 4 } := by
  intro ww segs seg w
  refine ⟨by simp [consume_segments, consume_loop_result_segments],
    ?_, ?_, ?_, ?_, ?_, ?_, ?_, ?_, rfl⟩ <;>
    by_cases h : ww && seg_words_truthy seg.words <;> simp [mk_seg_dict, h]

/-- C7: `segments_to_srt` produces, per segment in order, a sequence number
counting from 1, a `HH:MM:SS,mmm --> HH:MM:SS,mmm` timestamp line, the
trimmed segment text, and a blank-line separator. -/
theorem segments_to_srt_correct :
    ∀ segments : List SegmentOut,
      segments_to_srt segments = segments_to_srt_specSide segments := by
  intro segments
  simp [segments_to_srt, segments_to_srt_specSide, srt_lines_eq_blocks]

end WhisperServer

namespace Sweep

open WhisperServer

/-- The `run_test` loop concatenates the per-file contributions in file
order: a failure on one file never stops the remaining files. -/
theorem run_test_loop_eq (os_path_exists : String → Bool)
    (fetch : String → PyResult ResponseData) (basename : String → String) :
    ∀ fs : List String,
      run_test_loop os_path_exists fetch basename fs =
        ((fs.map (fun f =>
            (run_test_file os_path_exists fetch basename f).1)).flatten,
         (fs.map (fun f =>
            (run_test_file os_path_exists fetch basename f).2)).flatten) := by
  intro fs
  induction fs with
  | nil => rfl
  | cons f rest ih => simp [run_test_loop, ih]

/-- C9: over the fixed file list, a missing file causes no HTTP call and
contributes no record; a file whose request or JSON parsing raises
contributes exactly one error record (file name plus message), and every
file's contribution is collected independently of the others. -/
theorem run_test_correct :
    ∀ (os_path_exists : String → Bool) (fetch : String → PyResult ResponseData)
      (basename : String → String),
      run_test os_path_exists fetch basename =
        ((FILES.map (fun f =>
            (run_test_file os_path_exists fetch basename f).1)).flatten,
         (FILES.map (fun f =>
            (run_test_file os_path_exists fetch basename f).2)).flatten) ∧
      (∀ f, os_path_exists f = false →
        run_test_file os_path_exists fetch basename f = ([], [])) ∧
      (∀ f e, os_path_exists f = true → fetch f = .exn e →
        run_test_file os_path_exists fetch basename f =
          ([.error (basename f) e], [f])) := by
  intro pe fetch bn
  refine ⟨run_test_loop_eq pe fetch bn FILES, ?_, ?_⟩
  · intro f hf
    simp [run_test_file, hf]
  · intro f e hf he
    simp [run_test_file, hf, he]

/-- Witness for C9: a missing file yields no call and no record; a raising
fetch yields exactly one error record. -/
theorem run_test_correct_witness :
    run_test_file (fun _ => false) (fun _ => PyResult.exn "boom")
        (fun s => s) "a" = ([], []) ∧
    run_test_file (fun _ => true) (fun _ => PyResult.exn "boom")
        (fun s => s) "a" = ([SweepResult.error "a" "boom"], ["a"]) :=
  ⟨(run_test_correct (fun _ => false) (fun _ => PyResult.exn "boom")
      (fun s => s)).2.1 "a" rfl,
   (run_test_correct (fun _ => true) (fun _ => PyResult.exn "boom")
      (fun s => s)).2.2 "a" "boom" rfl rfl⟩

/-- `validRecords` is empty exactly when every record is an error record. -/
theorem validRecords_nil_iff :
    ∀ results : List SweepResult,
      validRecords results = [] ↔ ∀ r ∈ results, isErrorRecord r = true := by
  intro results
  induction results with
  | nil => simp [validRecords]
  | cons r rest ih =>
    cases r with
    | error f m => simpa [validRecords, isErrorRecord] using ih
    | success fr => simp [validRecords, isErrorRecord]

/-- The records without an error key are exactly the success records kept by
`validRecords`, in order. -/
theorem filter_not_error_eq_validRecords :
    ∀ results : List SweepResult,
      results.filter (fun r => !isErrorRecord r) =
        (validRecords results).map SweepResult.success := by
  intro results
  induction results with
  | nil => rfl
  | cons r rest ih =>
    cases r with
    | error f m => simpa [validRecords, isErrorRecord] using ih
    | success fr => simpa [validRecords, isErrorRecord] using ih

/-- C10: the summary table is the per-configuration rows in order; a
configuration whose results are all error records contributes no row; any
other configuration's row aggregates average probability, minimum
probability, low-confidence count and average processing time over exactly
the non-error records. -/
theorem summary_table_correct :
    ∀ (all : List (String × List SweepResult)) (label : String)
      (results : List SweepResult) (fr : FileResult) (frs : List FileResult),
      summary_table all = all.filterMap (fun p => summary_row p.1 p.2) ∧
      (summary_row label results = none ↔
        ∀ r ∈ results, isErrorRecord r = true) ∧
      results.filter (fun r => !isErrorRecord r) =
        (validRecords results).map SweepResult.success ∧
      (validRecords results = fr :: frs →
        summary_row label results = some
          { label := label
            avg_p := ((fr :: frs).map FileResult.avg_prob).sum /
              (((fr :: frs).length : ℕ) : ℚ)
            min_p := pyMinDefault 0 ((fr :: frs).map FileResult.min_prob)
            low_c := ((fr :: frs).map FileResult.low_conf_words).sum
            avg_t := ((fr :: frs).map FileResult.proc_time).sum /
              (((fr :: frs).length : ℕ) : ℚ) }) := by
  intro all label results fr frs
  refine ⟨?_, ?_, filter_not_error_eq_validRecords results, ?_⟩
  · induction all with
    | nil => rfl
    | cons p rest ih =>
      obtain ⟨l, rs⟩ := p
      rw [summary_table, List.filterMap_cons]
      cases h : summary_row l rs <;> simp [h, ih]
  · rw [← validRecords_nil_iff]
    cases h : validRecords results <;> simp [summary_row, h]
  · intro h
    rw [summary_row, h]

/-- Witness for C10: a configuration with one error record and one valid
record aggregates over the single valid record only. -/
theorem summary_table_correct_witness :
    summary_row "A" [SweepResult.error "f" "boom",
        SweepResult.success demoFileResult] = some
      { label := "A"
        avg_p := ([demoFileResult].map FileResult.avg_prob).sum /
          ((([demoFileResult] : List FileResult).length : ℕ) : ℚ)
        min_p := pyMinDefault 0 ([demoFileResult].map FileResult.min_prob)
        low_c := ([demoFileResult].map FileResult.low_conf_words).sum
        avg_t := ([demoFileResult].map FileResult.proc_time).sum /
          ((([demoFileResult] : List FileResult).length : ℕ) : ℚ) } :=
  (summary_table_correct [] "A"
    [SweepResult.error "f" "boom", SweepResult.success demoFileResult]
    demoFileResult []).2.2.2 rfl

end Sweep
